import Mathlib

/-!
Verification of the email-to-ticket pipeline of the ticket-management
backend (Python sources under `backend/app`).  The definitions below are a
shallow embedding of the source files:

* `backend/app/services/llm_service.py`     — keyword-fallback classifier
* `backend/app/services/email_service.py`   — message fetch / dedup
* `backend/app/services/email_processor.py` — pipeline orchestrator
* `backend/app/services/ticket_service.py`  — ticket store operations
* `backend/app/repositories/ticket_repository.py` — next-ticket-id

Machine floats of the source are modelled as rationals (the only numeric
comparisons involved are exact decimal constants such as 0.6), Python
dictionaries carrying update payloads are modelled as association lists
with CPython's changed-size-during-iteration semantics, and the
database session is modelled as explicit state passing.
-/

namespace TicketPipeline

/-- Modelled from the spec: the closed set of ticket categories
(`TicketCategoryEnum` of `app/schemas`, not under the provided sources).
The value set is the one listed in §4.1 / the source's `SYSTEM_PROMPT`:
MM, SD, FICO, PP, HCM, PM, QM, WM, PS, BW, ABAP, BASIS, OTHER. -/
inductive TicketCategoryEnum where
  | MM | SD | FICO | PP | HCM | PM | QM | WM | PS | BW | ABAP | BASIS | OTHER
  deriving DecidableEq, Repr

/-- Modelled from the spec: the closed set of ticket priorities
(`TicketPriorityEnum` of `app/schemas`, not under the provided sources);
values Low, Medium, High, Critical (§4.1, source `SYSTEM_PROMPT`). -/
inductive TicketPriorityEnum where
  | Low | Medium | High | Critical
  deriving DecidableEq, Repr

/-- Modelled from the spec: ticket status lifecycle
(`TicketStatus` of `app/models`, not under the provided sources);
Open → In-Progress → Resolved → Closed (§3). -/
inductive TicketStatus where
  | OPEN | IN_PROGRESS | RESOLVED | CLOSED
  deriving DecidableEq, Repr

/-- Modelled from the spec: audit-log entry types (`LogType` of
`app/models`): created, status-change, priority-change, assignment,
comment, message-received (§3). -/
inductive LogType where
  | CREATED | STATUS_CHANGE | PRIORITY_CHANGE | ASSIGNMENT | COMMENT | EMAIL_RECEIVED
  deriving DecidableEq, Repr

/-- `TicketCategoryEnum(value)` — Python enum lookup by value string;
`none` models a `ValueError`. -/
def categoryFromString : String → Option TicketCategoryEnum
  | "MM" => some .MM
  | "SD" => some .SD
  | "FICO" => some .FICO
  | "PP" => some .PP
  | "HCM" => some .HCM
  | "PM" => some .PM
  | "QM" => some .QM
  | "WM" => some .WM
  | "PS" => some .PS
  | "BW" => some .BW
  | "ABAP" => some .ABAP
  | "BASIS" => some .BASIS
  | "OTHER" => some .OTHER
  | _ => none

/-- `TicketPriorityEnum(value)` — Python enum lookup by value string. -/
def priorityFromString : String → Option TicketPriorityEnum
  | "Low" => some .Low
  | "Medium" => some .Medium
  | "High" => some .High
  | "Critical" => some .Critical
  | _ => none

/-! ### String helpers (Python `str.lower`, `in`, slicing) -/

/-- Python `s.lower()` on the character list of a string. -/
def lowerChars (s : String) : List Char := s.toList.map Char.toLower

/-- Boolean list-prefix test (helper for substring containment). -/
def isPrefixB : List Char → List Char → Bool
  | [], _ => true
  | _ :: _, [] => false
  | a :: as, b :: bs => a == b && isPrefixB as bs

/-- Python `pat in text` — substring containment. -/
def isInfixB (pat : List Char) : List Char → Bool
  | [] => isPrefixB pat []
  | c :: rest => isPrefixB pat (c :: rest) || isInfixB pat rest

/-- Python `s[:n]` — take the first `n` characters. -/
def takeChars (n : Nat) (s : String) : String := String.mk (s.toList.take n)

/-! ### Classifier tables — `llm_service.py` lines 17-93, transcribed -/

/-- `SAP_MODULE_KEYWORDS` (`llm_service.py`), in dict insertion order. -/
def sapModuleKeywords : List (String × List String) :=
  [ ("MM",
     ["material", "purchase", "procurement", "vendor", "inventory",
      "goods receipt", "purchase order", "po", "material master",
      "stock", "warehouse", "mrp", "purchase requisition", "pr",
      "invoice verification", "source list", "quota arrangement"]),
    ("SD",
     ["sales", "distribution", "customer", "order", "delivery",
      "billing", "invoice", "pricing", "sales order", "so",
      "quotation", "inquiry", "shipment", "shipping", "credit memo",
      "returns", "consignment", "third party"]),
    ("FICO",
     ["finance", "accounting", "controlling", "cost center", "profit center",
      "general ledger", "gl", "accounts payable", "ap", "accounts receivable", "ar",
      "asset accounting", "fixed asset", "financial statement", "budget",
      "internal order", "cost element", "closing", "reconciliation"]),
    ("PP",
     ["production", "planning", "manufacturing", "bom", "bill of material",
      "routing", "work center", "capacity", "production order", "shop floor",
      "mrp", "demand management", "sop", "scheduling"]),
    ("HCM",
     ["human resources", "hr", "payroll", "employee", "personnel",
      "time management", "attendance", "leave", "recruitment", "training",
      "organizational management", "benefits", "compensation"]),
    ("PM",
     ["plant maintenance", "maintenance", "equipment", "functional location",
      "work order", "notification", "preventive maintenance", "breakdown",
      "calibration", "inspection", "repair"]),
    ("QM",
     ["quality", "inspection", "quality management", "qm", "quality notification",
      "inspection lot", "quality certificate", "calibration", "audit",
      "control chart", "quality planning"]),
    ("WM",
     ["warehouse management", "wm", "storage bin", "transfer order",
      "putaway", "picking", "goods movement", "storage type", "warehouse structure"]),
    ("PS",
     ["project system", "project", "wbs", "work breakdown structure",
      "network", "milestone", "project planning", "project budget"]),
    ("BW",
     ["business warehouse", "bw", "bi", "business intelligence",
      "data warehouse", "infocube", "report", "query", "data extraction"]),
    ("ABAP",
     ["abap", "programming", "development", "code", "report", "function module",
      "bapi", "rfc", "enhancement", "user exit", "badi", "smartform", "sapscript"]),
    ("BASIS",
     ["basis", "admin", "system", "transport", "authorization", "role",
      "background job", "performance", "upgrade", "installation", "configuration",
      "user management", "sap*", "client"]) ]

/-- `PRIORITY_INDICATORS` (`llm_service.py`), in dict insertion order. -/
def priorityIndicators : List (String × List String) :=
  [ ("Critical",
     ["urgent", "critical", "emergency", "asap", "immediately", "down",
      "not working", "stopped", "blocked", "production issue", "showstopper"]),
    ("High",
     ["important", "high priority", "soon", "affecting", "impact",
      "multiple users", "deadline", "pressing"]),
    ("Low",
     ["minor", "cosmetic", "enhancement", "nice to have", "when possible",
      "low priority", "no rush"]) ]

/-- `sap_indicators` local list of `_keyword_based_analysis`. -/
def sapIndicators : List String :=
  ["sap", "erp", "transaction", "t-code", "abap", "fiori", "hana"]

/-! ### Keyword-fallback classifier — `_keyword_based_analysis` -/

/-- Modelled from the spec: the classification verdict record
(`EmailAnalysisResult` of `app/schemas`, not under the provided sources);
fields follow §4.1 and the constructor calls in `llm_service.py`.  The
opaque `raw_response` blob is reduced to the one datum the keyword
variant stores in it (`max_score`); no claim inspects it. -/
structure EmailAnalysisResult where
  is_sap_related : Bool
  confidence : ℚ
  detected_category : Option TicketCategoryEnum
  suggested_title : Option String
  suggested_priority : Option TicketPriorityEnum
  key_points : List String
  raw_max_score : Option Nat
  deriving DecidableEq, Repr

/-- `text = f"{subject} {body}".lower()`. -/
def textOf (subject body : String) : List Char :=
  lowerChars (subject ++ " " ++ body)

/-- `sum(1 for kw in keywords if kw.lower() in text)`. -/
def scoreOf (text : List Char) (keywords : List String) : Nat :=
  (keywords.filter (fun kw => isInfixB (lowerChars kw) text)).length

/-- Accumulator of the category-detection loop:
`detected_category`, `max_score`, `is_sap_related`. -/
structure CatAcc where
  detected : Option String
  maxScore : Nat
  isSap : Bool
  deriving DecidableEq, Repr

/-- One iteration of `for module, keywords in SAP_MODULE_KEYWORDS.items()`. -/
def catStep (text : List Char) (acc : CatAcc) (p : String × List String) : CatAcc :=
  let score := scoreOf text p.2
  if acc.maxScore < score then ⟨some p.1, score, true⟩ else acc

/-- The category-detection fold of `_keyword_based_analysis`, starting from
`detected_category = None`, `max_score = 0` and the indicator-based
`is_sap_related`. -/
def detectCategory (text : List Char) : CatAcc :=
  sapModuleKeywords.foldl (catStep text)
    ⟨none, 0, sapIndicators.any (fun ind => isInfixB (lowerChars ind) text)⟩

/-- The priority-detection loop of `_keyword_based_analysis`: first entry
of `PRIORITY_INDICATORS` with a phrase match wins (`break`); a failed
enum conversion leaves the initial `Medium` in place. -/
def detectPriorityLoop (text : List Char) : List (String × List String) → TicketPriorityEnum
  | [] => .Medium
  | (prio, kws) :: rest =>
    if kws.any (fun kw => isInfixB (lowerChars kw) text) then
      (priorityFromString prio).getD .Medium
    else detectPriorityLoop text rest

/-- `LLMService._keyword_based_analysis` (`llm_service.py` lines 505-549). -/
def keywordBasedAnalysis (subject body : String) : EmailAnalysisResult :=
  let text := textOf subject body
  let acc := detectCategory text
  let categoryEnum : Option TicketCategoryEnum :=
    match acc.detected with
    | some name => some ((categoryFromString name).getD .OTHER)
    | none => none
  { is_sap_related := acc.isSap
    confidence := if acc.isSap then mkRat 6 10 else mkRat 4 10
    detected_category := categoryEnum
    suggested_title := some (if subject.isEmpty then "Email Inquiry" else takeChars 100 subject)
    suggested_priority := some (detectPriorityLoop text priorityIndicators)
    key_points := []
    raw_max_score := some acc.maxScore }

/-! ### Data model — message, ticket, audit log, store state -/

/-- Modelled from the spec: the stored message record (`EmailSource` of
`app/models`, not under the provided sources); fields follow §3 and §6
and the `email_repo.create` / `mark_processed` call sites in the
sources.  The opaque raw-verdict blob stored at mark-processed time is
omitted (no claim inspects it). -/
structure EmailRec where
  id : Nat
  message_id : String
  from_address : String
  subject : String
  body_text : Option String
  processed : Bool
  is_sap_related : Option Bool
  detected_category : Option String
  ticket_created_id : Option Nat
  error_message : Option String
  deriving DecidableEq, Repr

/-- Modelled from the spec: the stored ticket record (`Ticket` of
`app/models`); fields follow §3/§6 and the `ticket_repo.create` call
sites in `ticket_service.py`. -/
structure TicketRec where
  id : Nat
  ticket_id : String
  title : String
  description : String
  status : TicketStatus
  priority : TicketPriorityEnum
  category : TicketCategoryEnum
  created_by : Nat
  assigned_to : Option Nat
  source_email_id : Option String
  source_email_from : Option String
  source_email_subject : Option String
  llm_confidence : Option ℚ
  created_at : Int
  resolved_at : Option Int
  resolution_time : Option Int
  deriving DecidableEq, Repr

/-- Modelled from the spec: one audit-log row (`TicketLog` of
`app/models`), as produced by `TicketService._create_log`. -/
structure LogEntry where
  ticket_pk : Nat
  user_id : Nat
  log_type : LogType
  action : String
  old_value : Option String
  new_value : Option String
  deriving DecidableEq, Repr

/-- The database session state.  `attempts` and `exportLog` are proof
instrumentation: `attempts` counts ticket-store create attempts,
`exportLog` records, per export invocation, how many stored messages
were processed at that moment. -/
structure Store where
  emails : List EmailRec
  tickets : List TicketRec
  logs : List LogEntry
  nextPk : Nat
  attempts : Nat
  exportLog : List Nat
  deriving DecidableEq, Repr

def emptyStore : Store := ⟨[], [], [], 1, 0, []⟩

/-- `.value` of a `TicketStatus` (enum values per §3's status set). -/
def statusValue : TicketStatus → String
  | .OPEN => "Open"
  | .IN_PROGRESS => "In Progress"
  | .RESOLVED => "Resolved"
  | .CLOSED => "Closed"

/-- `.value` of a `TicketPriorityEnum`. -/
def priorityValue : TicketPriorityEnum → String
  | .Low => "Low" | .Medium => "Medium" | .High => "High" | .Critical => "Critical"

/-- `.value` of a `TicketCategoryEnum`. -/
def categoryValue : TicketCategoryEnum → String
  | .MM => "MM" | .SD => "SD" | .FICO => "FICO" | .PP => "PP"
  | .HCM => "HCM" | .PM => "PM" | .QM => "QM" | .WM => "WM"
  | .PS => "PS" | .BW => "BW" | .ABAP => "ABAP" | .BASIS => "BASIS"
  | .OTHER => "OTHER"

/-! ### Message Source Adapter — `fetch_emails_with_token` -/

/-- A raw message as returned by the remote mailbox query (§6 boundary:
`{externalId, sender, recipients, subject, bodyContent, ...}`).  The
window filtering and `maxCount` cap happen on the remote side
(`$filter`/`$top`), so a fetch call is modelled by the list the remote
returns. -/
structure RemoteMsg where
  gid : String
  internetMessageId : Option String
  from_address : String
  subject : Option String
  bodyContent : String
  deriving DecidableEq, Repr

/-- Modelled from the spec: `EmailRepository.message_exists`
(`app/repositories`, not under the provided sources) — does a stored
message with this external identifier exist (§4.2 dedup check). -/
def messageExists (s : Store) (mid : String) : Bool :=
  s.emails.any (fun e => e.message_id == mid)

/-- Modelled from the spec: `EmailRepository.create` — persist a new
message in the unprocessed state, with the field normalization done at
the call site in `fetch_emails_with_token` (subject defaults to
`"(No Subject)"`). -/
def createEmailRec (s : Store) (m : RemoteMsg) (mid : String) : EmailRec × Store :=
  let e : EmailRec :=
    { id := s.nextPk, message_id := mid, from_address := m.from_address,
      subject := m.subject.getD "(No Subject)", body_text := some m.bodyContent,
      processed := false, is_sap_related := none, detected_category := none,
      ticket_created_id := none, error_message := none }
  (e, { s with emails := s.emails ++ [e], nextPk := s.nextPk + 1 })

/-- The per-message loop of `EmailService.fetch_emails_with_token`
(`email_service.py` lines 84-131): compute the external identifier,
skip if already stored, otherwise persist; return the newly created
records only. -/
def fetchEmails : List RemoteMsg → Store → List EmailRec × Store
  | [], s => ([], s)
  | m :: rest, s =>
    let mid := m.internetMessageId.getD m.gid
    if messageExists s mid then fetchEmails rest s
    else
      ((createEmailRec s m mid).1 :: (fetchEmails rest (createEmailRec s m mid).2).1,
       (fetchEmails rest (createEmailRec s m mid).2).2)

/-! ### Ticket Store — `ticket_repository.py` / `ticket_service.py` -/

/-- Python `str.zfill` for non-negative inputs. -/
def zfill (w : Nat) (s : String) : String :=
  String.mk (List.replicate (w - s.length) '0') ++ s

/-- `TicketRepository.get_next_ticket_id` (`ticket_repository.py`
lines 113-119): `f"T-{str(count + 1).zfill(3)}"` where `count` is the
current number of ticket rows. -/
def getNextTicketId (s : Store) : String :=
  "T-" ++ zfill 3 (toString (s.tickets.length + 1))

/-- `TicketRepository.delete` via `TicketService.delete_ticket`
(`ticket_service.py` lines 369-375): remove the ticket row by primary
key. -/
def deleteTicketByPk (s : Store) (pk : Nat) : Store :=
  { s with tickets := s.tickets.filter (fun t => t.id != pk) }

/-- Behaviour parameters of one pipeline run: the outcome of the
classification step for each message (`analyze_email` plus the
keyword-fallback retry block of `_process_single_email`; `.error` means
the whole analysis step raised), whether the k-th ticket-store create
succeeds, and the current wall-clock time. -/
structure RunEnv where
  classify : Nat → String → String → String → Except String EmailAnalysisResult
  createOk : Nat → Bool
  now : Int

/-- `TicketService.create_ticket_from_email` (`ticket_service.py` lines
494-534 — the second, later definition of that method, which in Python
overrides the earlier one at lines 93-142; it has no exception handler,
so a store rejection propagates to the caller).  A failed
`ticket_repo.create` is modelled by `env.createOk`; the attempt counter
increments either way. -/
def createTicketFromEmail (env : RunEnv) (s : Store)
    (title description : String) (category : TicketCategoryEnum)
    (priority : TicketPriorityEnum)
    (source_email_id source_email_from source_email_subject : String)
    (created_by : Nat) (llm_confidence : Option ℚ) :
    Except String TicketRec × Store :=
  let tid := getNextTicketId s
  let attemptIdx := s.attempts
  let s1 := { s with attempts := s.attempts + 1 }
  if env.createOk attemptIdx then
    let t : TicketRec :=
      { id := s1.nextPk, ticket_id := tid, title := title,
        description := description, status := .OPEN, priority := priority,
        category := category, created_by := created_by, assigned_to := none,
        source_email_id := some source_email_id,
        source_email_from := some source_email_from,
        source_email_subject := some source_email_subject,
        llm_confidence := llm_confidence, created_at := env.now,
        resolved_at := none, resolution_time := none }
    let s2 := { s1 with tickets := s1.tickets ++ [t], nextPk := s1.nextPk + 1 }
    let s3 := { s2 with logs := s2.logs ++
      [⟨t.id, created_by, .EMAIL_RECEIVED,
        "Ticket auto-created from email: " ++ source_email_subject, none, none⟩] }
    (.ok t, s3)
  else (.error "ticket store rejected create", s1)

/-! ### Pipeline Orchestrator — `email_processor.py` -/

/-- Primary key of the system user created by
`_get_or_create_system_user` (user store not modelled; no claim
inspects it). -/
def systemUserId : Nat := 0

/-- Rendering of `f"{confidence:.2%}"`; the exact decimal formatting is
abbreviated — the description string is never examined by a claim. -/
def percentString (q : ℚ) : String := toString (q * 100) ++ "%"

/-- The description built by `_create_ticket_from_analysis`
(`email_processor.py` lines 254-264). -/
def buildDescription (from_address subject body : String)
    (a : EmailAnalysisResult) : String :=
  let base := "**Email from:** " ++ from_address ++ "\n\n" ++
    "**Original Subject:** " ++ subject ++ "\n\n" ++
    "**Content:**\n" ++ takeChars 2000 body ++ "\n\n"
  let withPoints :=
    if a.key_points.isEmpty then base
    else base ++ "**Key Points:**\n" ++
      String.join (a.key_points.map (fun p => "- " ++ p ++ "\n"))
  withPoints ++ "\n---\n*Auto-generated ticket (Confidence: " ++
    percentString a.confidence ++ ")*"

/-- Modelled from the spec: `EmailRepository.get_by_id`. -/
def getEmailById (s : Store) (eid : Nat) : Option EmailRec :=
  s.emails.find? (fun e => e.id == eid)

/-- `EmailProcessor._create_ticket_from_analysis` (`email_processor.py`
lines 239-289).  Python truthiness of `analysis.suggested_title or ...`
treats an empty title like a missing one. -/
def createTicketFromAnalysis (env : RunEnv) (s : Store) (email_id : Nat)
    (subject body from_address : String) (a : EmailAnalysisResult) :
    Except String TicketRec × Store :=
  let title :=
    match a.suggested_title with
    | some t => if t.isEmpty then takeChars 200 subject else t
    | none => takeChars 200 subject
  let description := buildDescription from_address subject body a
  let category := a.detected_category.getD .OTHER
  let priority := a.suggested_priority.getD .Medium
  let source_email_id :=
    match getEmailById s email_id with
    | some e => e.message_id
    | none => toString email_id
  createTicketFromEmail env s title description category priority
    source_email_id from_address subject systemUserId (some a.confidence)

/-- Modelled from the spec: `EmailRepository.mark_processed` — record
the processing outcome on the message row (§4.3 step d; unset keyword
arguments default to `None`). -/
def markProcessed (s : Store) (email_id : Nat) (is_sap : Bool)
    (cat : Option String) (ticket_id : Option Nat) (err : Option String) :
    Store :=
  { s with emails := s.emails.map (fun e =>
      if e.id == email_id then
        { e with processed := true, is_sap_related := some is_sap,
                 detected_category := cat, ticket_created_id := ticket_id,
                 error_message := err }
      else e) }

/-- The per-message result dict of `_process_single_email`. -/
structure ProcResult where
  email_id : Nat
  is_sap_related : Bool
  category : Option String
  ticket_created : Bool
  ticket_id : Option Nat
  confidence : ℚ
  deriving DecidableEq, Repr

/-- `EmailProcessor._process_single_email` (`email_processor.py` lines
168-237): classify, apply the creation policy
(`is_sap_related and auto_create_ticket and confidence >= 0.6`),
create the ticket if the policy holds, then mark the message
processed. -/
def processSingleEmail (env : RunEnv) (s : Store) (email_id : Nat)
    (subject body from_address : String) (auto_create_ticket : Bool) :
    Except String ProcResult × Store :=
  match env.classify email_id subject body from_address with
  | .error e => (.error e, s)
  | .ok analysis =>
    let category := analysis.detected_category.map categoryValue
    if analysis.is_sap_related && auto_create_ticket &&
        decide (mkRat 6 10 ≤ analysis.confidence) then
      match createTicketFromAnalysis env s email_id subject body from_address analysis with
      | (.error e, s') => (.error e, s')
      | (.ok t, s') =>
        let s'' := markProcessed s' email_id analysis.is_sap_related category (some t.id) none
        (.ok ⟨email_id, analysis.is_sap_related, category, true, some t.id,
          analysis.confidence⟩, s'')
    else
      let s' := markProcessed s email_id analysis.is_sap_related category none none
      (.ok ⟨email_id, analysis.is_sap_related, category, false, none,
        analysis.confidence⟩, s')

/-- The run statistics dict of `process_daily_emails`. -/
structure RunStats where
  fetched : Nat
  analyzed : Nat
  sap_related : Nat
  tickets_created : Nat
  errors : Nat
  skipped : Nat
  deriving DecidableEq, Repr

/-- One iteration of the per-message try/except of
`process_daily_emails` (lines 75-103): on success update the counters;
on a per-message exception count an error and mark the message
processed with `is_sap_related=False` and the error text. -/
def handleEmail (env : RunEnv) (auto : Bool) (s : Store) (st : RunStats)
    (e : EmailRec) : RunStats × Store :=
  match processSingleEmail env s e.id e.subject (e.body_text.getD "") e.from_address auto with
  | (.ok r, s') =>
    let st1 := { st with analyzed := st.analyzed + 1 }
    let st2 :=
      if r.is_sap_related then
        { st1 with sap_related := st1.sap_related + 1,
                   tickets_created := st1.tickets_created +
                     (if r.ticket_created then 1 else 0) }
      else { st1 with skipped := st1.skipped + 1 }
    (st2, s')
  | (.error msg, s') =>
    ({ st with errors := st.errors + 1 },
     markProcessed s' e.id false none none (some msg))

/-- The `for email in unprocessed` loop of `process_daily_emails`. -/
def processLoop (env : RunEnv) (auto : Bool) :
    List EmailRec → Store → RunStats → RunStats × Store
  | [], s, st => (st, s)
  | e :: rest, s, st =>
    processLoop env auto rest (handleEmail env auto s st e).2 (handleEmail env auto s st e).1

/-- Modelled from the spec: `EmailRepository.get_unprocessed(limit)` —
the stored messages still unprocessed, bounded by `limit`
(`email_service.get_unprocessed_emails`). -/
def getUnprocessed (s : Store) (limit : Nat) : List EmailRec :=
  (s.emails.filter (fun e => !e.processed)).take limit

/-- `TicketService.update_frontend_tickets_file` (`ticket_service.py`
lines 184-240) as seen by its callers: one export invocation that reads
the store and either succeeds with a count or fails; the invocation is
recorded in `exportLog` together with how many stored messages were
processed at that moment. -/
def updateFrontendTicketsFile (exportOk : Bool) (s : Store) :
    Except String Nat × Store :=
  let s' := { s with exportLog := s.exportLog ++
    [(s.emails.filter (fun e => e.processed)).length] }
  if exportOk then (.ok s'.tickets.length, s') else (.error "export failed", s')

/-- `EmailProcessor.process_daily_emails` (`email_processor.py` lines
41-116): fetch, load unprocessed messages bounded by `max_emails`,
process each independently, and in the `finally` block invoke the
frontend-export rebuild once, swallowing its failure. -/
def processDailyEmails (env : RunEnv) (exportOk : Bool) (s0 : Store)
    (remote : List RemoteMsg) (max_emails : Nat)
    (auto_create_tickets : Bool) : RunStats × Store :=
  let fetched := fetchEmails remote s0
  let unprocessed := getUnprocessed fetched.2 max_emails
  let st0 : RunStats := ⟨fetched.1.length, 0, 0, 0, 0, 0⟩
  let looped := processLoop env auto_create_tickets unprocessed fetched.2 st0
  (looped.1, (updateFrontendTicketsFile exportOk looped.2).2)

/-! ### Ticket update — `TicketService.update_ticket` -/

/-- `TicketService._create_log` — append one audit row. -/
def addLog (s : Store) (pk uid : Nat) (lt : LogType) (action : String)
    (ov nv : Option String) : Store :=
  { s with logs := s.logs ++ [⟨pk, uid, lt, action, ov, nv⟩] }

/-- Modelled from the spec: the fields a ticket-update payload may carry
(`TicketUpdate` of `app/schemas`, not under the provided sources);
`update_data.model_dump(exclude_unset=True)` yields one entry per field
the caller actually set. -/
inductive UpdEntry where
  | setStatus (v : TicketStatus)
  | setPriority (v : TicketPriorityEnum)
  | setAssignedTo (v : Option Nat)
  | setTitle (v : String)
  | setDescription (v : String)
  deriving DecidableEq, Repr

/-- The CPython error message raised when a dict gains a key while its
items are being iterated. -/
def dictChangedMsg : String := "dictionary changed size during iteration"

/-- Rendering of a user name in assignment logs (user store not
modelled; no claim inspects the text). -/
def userNameOf : Option Nat → String
  | some u => "user " ++ toString u
  | none => "Unassigned"

/-- The `for field, new_value in update_dict.items()` loop of
`update_ticket` (`ticket_service.py` lines 313-354), with CPython dict
semantics: inserting `resolved_at` / `resolution_time` into
`update_dict` during the iteration makes the next call of the items
iterator raise `RuntimeError`.  `changed` carries whether the dict has
grown; `pend` carries the inserted derived fields
(resolution timestamp, resolution minutes). -/
def updateTicketGo (t : TicketRec) (now : Int) (uid : Nat) :
    List UpdEntry → Bool → Store → Option (Int × Int) →
    Except String (Store × Option (Int × Int))
  | [], changed, s, pend =>
    if changed then .error dictChangedMsg else .ok (s, pend)
  | entry :: rest, changed, s, pend =>
    if changed then .error dictChangedMsg
    else
      match entry with
      | .setStatus v =>
        if t.status ≠ v then
          let s' := addLog s t.id uid .STATUS_CHANGE
            ("Status changed from " ++ statusValue t.status ++ " to " ++ statusValue v)
            (some (statusValue t.status)) (some (statusValue v))
          if v = .RESOLVED then
            updateTicketGo t now uid rest true s'
              (some (now, (now - t.created_at) / 60))
          else updateTicketGo t now uid rest false s' pend
        else updateTicketGo t now uid rest false s pend
      | .setPriority v =>
        if t.priority ≠ v then
          let s' := addLog s t.id uid .PRIORITY_CHANGE
            ("Priority changed from " ++ priorityValue t.priority ++
              " to " ++ priorityValue v)
            (some (priorityValue t.priority)) (some (priorityValue v))
          updateTicketGo t now uid rest false s' pend
        else updateTicketGo t now uid rest false s pend
      | .setAssignedTo v =>
        if t.assigned_to ≠ v then
          let s' := addLog s t.id uid .ASSIGNMENT
            ("Assigned to " ++ userNameOf v)
            (t.assigned_to.map (fun u => userNameOf (some u)))
            (v.map (fun u => userNameOf (some u)))
          updateTicketGo t now uid rest false s' pend
        else updateTicketGo t now uid rest false s pend
      | .setTitle _ => updateTicketGo t now uid rest false s pend
      | .setDescription _ => updateTicketGo t now uid rest false s pend

/-- `getattr`-style application of one payload entry to the ticket row
(`ticket_repo.update`). -/
def applyEntry (t : TicketRec) : UpdEntry → TicketRec
  | .setStatus v => { t with status := v }
  | .setPriority v => { t with priority := v }
  | .setAssignedTo v => { t with assigned_to := v }
  | .setTitle v => { t with title := v }
  | .setDescription v => { t with description := v }

/-- `TicketService.update_ticket` (`ticket_service.py` lines 299-367):
look up the ticket, run the change-tracking loop (which can raise via
the dict-mutation semantics above), persist the changed fields plus any
inserted derived fields, and rebuild the frontend export file. -/
def updateTicket (exportOk : Bool) (s : Store) (pk : Nat)
    (upd : List UpdEntry) (now : Int) (uid : Nat) :
    Except String (Option (TicketRec × Store)) :=
  match s.tickets.find? (fun t => t.id == pk) with
  | none => .ok none
  | some t =>
    match updateTicketGo t now uid upd false s none with
    | .error e => .error e
    | .ok (s', pend) =>
      let t1 := upd.foldl applyEntry t
      let t2 :=
        match pend with
        | some (ra, rt) =>
          { t1 with resolved_at := some ra, resolution_time := some rt }
        | none => t1
      let newTickets := s'.tickets.map (fun x => if x.id == pk then t2 else x)
      let s2 := { s' with tickets := newTickets }
      .ok (some (t2, (updateFrontendTicketsFile exportOk s2).2))

/-! ### Helper operations for the identifier-allocation claims -/

/-- One successful auto-create through the source's
`create_ticket_from_email`, with fixed content fields (only the
identifier allocation matters to the claims that use this). -/
def createTicketSimple (s : Store) : Store :=
  (createTicketFromEmail ⟨fun _ _ _ _ => .error "", fun _ => true, 0⟩ s
    "t" "d" .OTHER .Medium "m" "f" "subj" systemUserId none).2

/-- The identifiers handed out by `get_next_ticket_id` over `n`
consecutive successful creates. -/
def createsTrace : Nat → Store → List String
  | 0, _ => []
  | n + 1, s => getNextTicketId s :: createsTrace n (createTicketSimple s)

/-! ### Derived definitions and concrete fixtures used by the claims -/

/-- The external identifiers of the stored messages. -/
def idsOf (s : Store) : List String := s.emails.map (fun e => e.message_id)

/-- Every stored message with primary key `i` is marked processed. -/
abbrev processedFor (l : List EmailRec) (i : Nat) : Prop :=
  ∀ rec ∈ l, rec.id = i → rec.processed = true

/-- The `ticket_created` flag of a per-message processing outcome
(`False` when the processing raised). -/
def ticketCreatedOf : Except String ProcResult → Bool
  | .ok r => r.ticket_created
  | .error _ => false

/-- Environment in which classification returns the fixed verdict `a`
and the ticket store accepts every create. -/
def pureEnv (a : EmailAnalysisResult) : RunEnv :=
  ⟨fun _ _ _ _ => .ok a, fun _ => true, 0⟩

/-- The phrase list of one urgency level of `PRIORITY_INDICATORS`. -/
def phrasesFor (level : String) : List String :=
  ((priorityIndicators.find? (fun p => p.1 == level)).getD ("", [])).2

/-- Does any phrase of the list occur in the text? -/
def anyPhrase (text : List Char) (l : List String) : Bool :=
  l.any (fun kw => isInfixB (lowerChars kw) text)

/-- The spec's wording of the priority rule (§4.1 and the design note on
tie precedence): scan the urgency lists in the fixed order Critical,
High, Low, return the first level with a phrase match, default
Medium. -/
def specSuggestedPriority (text : List Char) : TicketPriorityEnum :=
  if anyPhrase text (phrasesFor "Critical") then .Critical
  else if anyPhrase text (phrasesFor "High") then .High
  else if anyPhrase text (phrasesFor "Low") then .Low
  else .Medium

/-- The MM entry of the keyword table (head of the dict). -/
def mmEntry : String × List String := sapModuleKeywords.getD 0 ("", [])

/-- A fresh unprocessed message fixture. -/
def mkEmail (i : Nat) : EmailRec :=
  ⟨i, "m" ++ toString i, "a@b.com", "subject " ++ toString i, some "body",
   false, none, none, none, none⟩

def demoEmail : EmailRec := mkEmail 5

/-- Store holding one unprocessed message. -/
def demoEStore : Store := ⟨[demoEmail], [], [], 6, 0, []⟩

/-- Store holding two unprocessed messages. -/
def twoEmailStore : Store := ⟨[mkEmail 1, mkEmail 2], [], [], 3, 0, []⟩

/-- A relevant verdict with the given confidence. -/
def verdictAt (c : ℚ) : EmailAnalysisResult :=
  ⟨true, c, some .MM, some "Ticket title", some .Medium, [], none⟩

/-- A non-relevant verdict. -/
def verdictIrrelevant : EmailAnalysisResult :=
  ⟨false, mkRat 4 10, none, some "Ticket title", some .Medium, [], none⟩

/-- Classification succeeds with a non-relevant verdict; store healthy. -/
def envBenign : RunEnv := ⟨fun _ _ _ _ => .ok verdictIrrelevant, fun _ => true, 0⟩

/-- Classification succeeds with a high-confidence relevant verdict, but
every ticket-store create is rejected. -/
def envFail : RunEnv := ⟨fun _ _ _ _ => .ok (verdictAt (mkRat 9 10)), fun _ => false, 0⟩

/-- The whole analysis step raises for every message. -/
def envErr : RunEnv := ⟨fun _ _ _ _ => .error "boom", fun _ => true, 0⟩

/-- An open ticket fixture. -/
def demoTicket : TicketRec :=
  { id := 1, ticket_id := "T-001", title := "t", description := "d",
    status := .OPEN, priority := .Medium, category := .OTHER,
    created_by := 0, assigned_to := none, source_email_id := none,
    source_email_from := none, source_email_subject := none,
    llm_confidence := none, created_at := 0, resolved_at := none,
    resolution_time := none }

/-- Store holding the open ticket fixture. -/
def demoTStore : Store := ⟨[], [demoTicket], [], 2, 0, []⟩

/-- Two remote-message fixtures sharing one identifier across windows. -/
def remoteMsgA : RemoteMsg := ⟨"g1", some "mid-a", "x@y.com", some "hello", "body a"⟩

def remoteMsgB : RemoteMsg := ⟨"g2", some "mid-b", "x@y.com", some "world", "body b"⟩

/-! ## Theorems -/

/-- C1: for every message and classification verdict, the pipeline
creates a ticket if and only if the verdict's relevance flag is true,
auto-create is enabled, and the confidence is at least 0.6; the two
final conjuncts check the boundary: at confidence exactly 0.6 a ticket
is created, at 0.59 none is. -/
theorem creation_threshold_policy (s : Store) (eid : Nat)
    (subj body fromA : String) (auto : Bool) (a : EmailAnalysisResult) :
    ticketCreatedOf (processSingleEmail (pureEnv a) s eid subj body fromA auto).1
      = (a.is_sap_related && auto && decide (mkRat 6 10 ≤ a.confidence))
    ∧ (processSingleEmail (pureEnv a) s eid subj body fromA auto).2.tickets.length
      = s.tickets.length +
        (if a.is_sap_related && auto && decide (mkRat 6 10 ≤ a.confidence) then 1 else 0)
    ∧ ticketCreatedOf (processSingleEmail (pureEnv (verdictAt (mkRat 6 10))) demoEStore 5 "s" "b" "f" true).1 = true
    ∧ ticketCreatedOf (processSingleEmail (pureEnv (verdictAt (mkRat 59 100))) demoEStore 5 "s" "b" "f" true).1 = false := by
  refine ⟨?_, ?_, by decide, by decide⟩
  · by_cases h : (a.is_sap_related && auto && decide (mkRat 6 10 ≤ a.confidence)) = true
    · simp [processSingleEmail, pureEnv, h, createTicketFromAnalysis,
        createTicketFromEmail, markProcessed, ticketCreatedOf]
    · simp only [Bool.not_eq_true] at h
      simp [processSingleEmail, pureEnv, h, markProcessed, ticketCreatedOf]
  · by_cases h : (a.is_sap_related && auto && decide (mkRat 6 10 ≤ a.confidence)) = true
    · simp [processSingleEmail, pureEnv, h, createTicketFromAnalysis,
        createTicketFromEmail, markProcessed]
    · simp only [Bool.not_eq_true] at h
      simp [processSingleEmail, pureEnv, h, markProcessed]

/-- C5 counterexample: `get_next_ticket_id` is count-based, so after
creating two tickets and deleting the first, the identifier T-002 —
already assigned to the second ticket — is handed out a second time:
two distinct create calls receive the same identifier and the store
ends up with two tickets sharing it. -/
theorem ticket_id_reuse_counterexample :
    getNextTicketId (createTicketSimple emptyStore) = "T-002"
    ∧ getNextTicketId (deleteTicketByPk (createTicketSimple (createTicketSimple emptyStore)) 1) = "T-002"
    ∧ ((createTicketSimple (deleteTicketByPk (createTicketSimple (createTicketSimple emptyStore)) 1)).tickets.map
        (fun t => t.ticket_id)) = ["T-002", "T-002"] := by
  exact ⟨rfl, rfl, rfl⟩

/-- C6: evaluation of `update_ticket` at the failing input.  Setting the
status of an Open ticket to Resolved makes the loop insert
`resolved_at`/`resolution_time` into the dict being iterated, so the
call raises `RuntimeError` instead of completing; setting the status to
its current value succeeds and appends zero audit entries (the returned
store's logs are unchanged). -/
theorem update_resolved_dict_bug :
    updateTicket true demoTStore 1 [.setStatus .RESOLVED] 600 7 = .error dictChangedMsg
    ∧ updateTicket true demoTStore 1 [.setStatus .OPEN] 600 7
      = .ok (some (demoTicket, { demoTStore with exportLog := [0] }))
    ∧ demoTicket.status = .OPEN := by
  exact ⟨rfl, rfl, rfl⟩

/-- C7 counterexample: when the ticket store rejects the create for a
relevant high-confidence message, the pipeline makes exactly one create
attempt — not the two attempts a retry-once policy would make — creates
no ticket, counts one error, and still marks the message processed. -/
theorem no_retry_counterexample :
    (processDailyEmails envFail true demoEStore [] 100 true).2.attempts = 1
    ∧ ¬ (processDailyEmails envFail true demoEStore [] 100 true).2.attempts = 2
    ∧ (processDailyEmails envFail true demoEStore [] 100 true).2.tickets = []
    ∧ (processDailyEmails envFail true demoEStore [] 100 true).1.errors = 1
    ∧ processedFor (processDailyEmails envFail true demoEStore [] 100 true).2.emails 5 := by
  refine ⟨rfl, by decide, rfl, rfl, by decide⟩

/-- C3 counterexample: with two unprocessed messages in the store and
`max_emails = 1`, the run loads only one message, so message 2 — which
was unprocessed before the run — is still unprocessed afterwards. -/
theorem processed_once_counterexample :
    ((processDailyEmails envBenign true twoEmailStore [] 1 true).2.emails.filter
      (fun e => !e.processed)).map (fun e => e.id) = [2] := by
  rfl

/-- C9: the keyword-fallback classifier's suggested priority equals the
spec's rule — scan the urgency lists in the fixed precedence order
Critical, then High, then Low, return the first level with a phrase
match in the concatenated subject and body, default Medium. -/
theorem priority_precedence (subject body : String) :
    (keywordBasedAnalysis subject body).suggested_priority
      = some (specSuggestedPriority (textOf subject body)) := by
  have h : detectPriorityLoop (textOf subject body) priorityIndicators
      = specSuggestedPriority (textOf subject body) := by
    simp only [detectPriorityLoop, priorityIndicators, specSuggestedPriority,
      phrasesFor, anyPhrase, priorityFromString, List.find?, Option.getD]
    rfl
  simp [keywordBasedAnalysis, h]

/-- A table entry with keyword score zero leaves the category
accumulator unchanged. -/
theorem catStep_of_zero (text : List Char) (acc : CatAcc) (p : String × List String)
    (h : scoreOf text p.2 = 0) : catStep text acc p = acc := by
  simp [catStep, h]

/-- The category fold ignores a run of entries whose scores are all
zero. -/
theorem foldl_catStep_zero (text : List Char) :
    ∀ (l : List (String × List String)) (acc : CatAcc),
      (∀ p ∈ l, scoreOf text p.2 = 0) → l.foldl (catStep text) acc = acc := by
  intro l
  induction l with
  | nil => intro acc _; rfl
  | cons p rest ih =>
    intro acc h
    rw [List.foldl_cons, catStep_of_zero text acc p (h p (List.mem_cons_self ..))]
    exact ih acc (fun q hq => h q (List.mem_cons_of_mem _ hq))

/-- The keyword table's category names are pairwise distinct. -/
theorem sapKeys_nodup : (sapModuleKeywords.map Prod.fst).Nodup := by decide

/-- Every category name of the keyword table is a valid enum value. -/
theorem sapKeys_enum : ∀ x ∈ sapModuleKeywords.map Prod.fst, (categoryFromString x).isSome := by
  decide

/-- C2: the keyword-fallback classifier reports confidence exactly 0.6
precisely when relevant and exactly 0.4 precisely when not; for input
matching keywords of exactly one category it reports relevant with that
category; for input matching no keyword and no system indicator it
reports not relevant with a null category. -/
theorem keyword_fallback_contract (subject body : String) :
    ((keywordBasedAnalysis subject body).confidence = mkRat 6 10 ↔
      (keywordBasedAnalysis subject body).is_sap_related = true)
    ∧ ((keywordBasedAnalysis subject body).confidence = mkRat 4 10 ↔
      (keywordBasedAnalysis subject body).is_sap_related = false)
    ∧ (∀ name kws, (name, kws) ∈ sapModuleKeywords →
        0 < scoreOf (textOf subject body) kws →
        (∀ p ∈ sapModuleKeywords, p.1 ≠ name → scoreOf (textOf subject body) p.2 = 0) →
        (keywordBasedAnalysis subject body).is_sap_related = true
        ∧ ∃ c, categoryFromString name = some c
            ∧ (keywordBasedAnalysis subject body).detected_category = some c)
    ∧ ((∀ p ∈ sapModuleKeywords, scoreOf (textOf subject body) p.2 = 0) →
       (∀ ind ∈ sapIndicators, isInfixB (lowerChars ind) (textOf subject body) = false) →
       (keywordBasedAnalysis subject body).is_sap_related = false
       ∧ (keywordBasedAnalysis subject body).detected_category = none) := by
  refine ⟨?_, ?_, ?_, ?_⟩
  · cases hsap : (detectCategory (textOf subject body)).isSap <;>
      simp [keywordBasedAnalysis, hsap]
    decide
  · cases hsap : (detectCategory (textOf subject body)).isSap <;>
      simp [keywordBasedAnalysis, hsap]
    decide
  · intro name kws hmem hpos hothers
    obtain ⟨A, B, hsplit⟩ := List.append_of_mem hmem
    have hnodup := sapKeys_nodup
    rw [hsplit, List.map_append, List.map_cons] at hnodup
    have hnameA : name ∉ A.map Prod.fst := by
      intro hx
      rcases List.nodup_append.mp hnodup with ⟨_, _, hdisj⟩
      exact hdisj hx (List.mem_cons_self ..)
    have hnameB : name ∉ B.map Prod.fst := by
      rcases List.nodup_append.mp hnodup with ⟨_, hcons, _⟩
      exact (List.nodup_cons.mp hcons).1
    have hAz : ∀ p ∈ A, scoreOf (textOf subject body) p.2 = 0 := by
      intro p hp
      refine hothers p (hsplit ▸ List.mem_append_left _ hp) ?_
      intro heq
      exact hnameA (heq ▸ List.mem_map_of_mem Prod.fst hp)
    have hBz : ∀ p ∈ B, scoreOf (textOf subject body) p.2 = 0 := by
      intro p hp
      refine hothers p (hsplit ▸ List.mem_append_right _ (List.mem_cons_of_mem _ hp)) ?_
      intro heq
      exact hnameB (heq ▸ List.mem_map_of_mem Prod.fst hp)
    have hacc : detectCategory (textOf subject body)
        = ⟨some name, scoreOf (textOf subject body) kws, true⟩ := by
      unfold detectCategory
      rw [hsplit, List.foldl_append, foldl_catStep_zero _ A _ hAz, List.foldl_cons]
      have hstep : catStep (textOf subject body)
          ⟨none, 0, sapIndicators.any (fun ind => isInfixB (lowerChars ind) (textOf subject body))⟩
          (name, kws)
          = ⟨some name, scoreOf (textOf subject body) kws, true⟩ := by
        simp [catStep, hpos]
      rw [hstep]
      exact foldl_catStep_zero _ B _ hBz
    have hkey : name ∈ sapModuleKeywords.map Prod.fst :=
      List.mem_map_of_mem Prod.fst hmem
    obtain ⟨c, hc⟩ := Option.isSome_iff_exists.mp (sapKeys_enum name hkey)
    refine ⟨by simp [keywordBasedAnalysis, hacc], c, hc, ?_⟩
    simp [keywordBasedAnalysis, hacc, hc]
  · intro hall hinds
    have hfold : detectCategory (textOf subject body)
        = ⟨none, 0, sapIndicators.any (fun ind => isInfixB (lowerChars ind) (textOf subject body))⟩ := by
      unfold detectCategory
      exact foldl_catStep_zero _ _ _ hall
    have hany : sapIndicators.any (fun ind => isInfixB (lowerChars ind) (textOf subject body)) = false := by
      simp only [List.any_eq_false]
      intro ind hind
      simp [hinds ind hind]
    constructor
    · simp [keywordBasedAnalysis, hfold, hany]
    · simp [keywordBasedAnalysis, hfold]

/-- C2 witness: a concrete input matching exactly the MM category list
("goods receipt failing") and a concrete input ("xv" / "yz") matching
no keyword and no indicator, discharged on `keyword_fallback_contract`. -/
theorem keyword_fallback_contract_witness :
    (("MM", mmEntry.2) ∈ sapModuleKeywords
     ∧ 0 < scoreOf (textOf "goods receipt failing" "") mmEntry.2
     ∧ ((keywordBasedAnalysis "goods receipt failing" "").is_sap_related = true
        ∧ ∃ c, categoryFromString "MM" = some c
            ∧ (keywordBasedAnalysis "goods receipt failing" "").detected_category = some c))
    ∧ ((∀ p ∈ sapModuleKeywords, scoreOf (textOf "xv" "yz") p.2 = 0)
       ∧ ((keywordBasedAnalysis "xv" "yz").is_sap_related = false
          ∧ (keywordBasedAnalysis "xv" "yz").detected_category = none)) := by
  refine ⟨⟨by decide, by decide, ?_⟩, ⟨by decide, ?_⟩⟩
  · exact (keyword_fallback_contract "goods receipt failing" "").2.2.1 "MM" mmEntry.2
      (by decide) (by decide) (by decide)
  · exact (keyword_fallback_contract "xv" "yz").2.2.2 (by decide) (by decide)

/-- The dedup check answers exactly membership of the identifier among
the stored messages. -/
theorem messageExists_iff (s : Store) (mid : String) :
    messageExists s mid = true ↔ mid ∈ idsOf s := by
  simp only [messageExists, idsOf, List.any_eq_true, List.mem_map, beq_iff_eq]

theorem idsOf_create (s : Store) (m : RemoteMsg) (mid : String) :
    idsOf (createEmailRec s m mid).2 = idsOf s ++ [mid] := by
  simp [createEmailRec, idsOf]

/-- Invariant of one fetch call: distinctness of stored identifiers is
preserved, the store only grows, and every returned record is newly
created (its identifier was absent before) and is stored afterwards. -/
theorem fetch_main : ∀ (r : List RemoteMsg) (s : Store), (idsOf s).Nodup →
    (idsOf (fetchEmails r s).2).Nodup
    ∧ (∀ m ∈ idsOf s, m ∈ idsOf (fetchEmails r s).2)
    ∧ (∀ e ∈ s.emails, e ∈ (fetchEmails r s).2.emails)
    ∧ (∀ e ∈ (fetchEmails r s).1, e.message_id ∉ idsOf s ∧ e ∈ (fetchEmails r s).2.emails) := by
  intro r
  induction r with
  | nil =>
    intro s h
    exact ⟨h, fun m hm => hm, fun e he => he, by simp [fetchEmails]⟩
  | cons m rest ih =>
    intro s hnd
    by_cases hex : messageExists s (m.internetMessageId.getD m.gid) = true
    · have hred : fetchEmails (m :: rest) s = fetchEmails rest s := by
        simp [fetchEmails, hex]
      rw [hred]
      exact ih s hnd
    · have hmid : (m.internetMessageId.getD m.gid) ∉ idsOf s := by
        intro hin
        exact hex ((messageExists_iff s _).mpr hin)
      have hred : fetchEmails (m :: rest) s
          = ((createEmailRec s m (m.internetMessageId.getD m.gid)).1 ::
              (fetchEmails rest (createEmailRec s m (m.internetMessageId.getD m.gid)).2).1,
             (fetchEmails rest (createEmailRec s m (m.internetMessageId.getD m.gid)).2).2) := by
        simp [fetchEmails, hex]
      have hnd' : (idsOf (createEmailRec s m (m.internetMessageId.getD m.gid)).2).Nodup := by
        rw [idsOf_create]
        simp [List.nodup_append, hmid, hnd]
      obtain ⟨ih1, ih2, ih3, ih4⟩ := ih (createEmailRec s m (m.internetMessageId.getD m.gid)).2 hnd'
      have hsub : ∀ x ∈ idsOf s, x ∈ idsOf (createEmailRec s m (m.internetMessageId.getD m.gid)).2 := by
        intro x hx
        rw [idsOf_create]
        exact List.mem_append_left _ hx
      have hmemNew : (createEmailRec s m (m.internetMessageId.getD m.gid)).1
          ∈ (createEmailRec s m (m.internetMessageId.getD m.gid)).2.emails := by
        simp [createEmailRec]
      have hsubE : ∀ e ∈ s.emails, e ∈ (createEmailRec s m (m.internetMessageId.getD m.gid)).2.emails := by
        intro e he
        simp [createEmailRec]
        exact Or.inl he
      rw [hred]
      refine ⟨ih1, ?_, ?_, ?_⟩
      · intro x hx
        exact ih2 x (hsub x hx)
      · intro e he
        exact ih3 e (hsubE e he)
      · intro e he
        rcases List.mem_cons.mp he with heq | htl
        · subst heq
          refine ⟨?_, ih3 _ hmemNew⟩
          have hid : (createEmailRec s m (m.internetMessageId.getD m.gid)).1.message_id
              = m.internetMessageId.getD m.gid := by
            simp [createEmailRec]
          rw [hid]
          exact hmid
        · obtain ⟨hnot, hin⟩ := ih4 e htl
          refine ⟨?_, hin⟩
          intro hmem
          exact hnot (hsub _ hmem)

/-- C4: two fetch calls with arbitrary (overlapping) windows never
create two stored messages sharing an external identifier: identifier
distinctness is preserved across both calls, and each call returns only
the records it newly created — their identifiers were absent from the
store when the call began and are stored afterwards. -/
theorem idempotent_ingestion (s : Store) (r1 r2 : List RemoteMsg)
    (h : (idsOf s).Nodup) :
    (idsOf (fetchEmails r2 (fetchEmails r1 s).2).2).Nodup
    ∧ (∀ e ∈ (fetchEmails r1 s).1,
        e.message_id ∉ idsOf s ∧ e ∈ (fetchEmails r1 s).2.emails)
    ∧ (∀ e ∈ (fetchEmails r2 (fetchEmails r1 s).2).1,
        e.message_id ∉ idsOf (fetchEmails r1 s).2
        ∧ e ∈ (fetchEmails r2 (fetchEmails r1 s).2).2.emails) := by
  obtain ⟨h1, _, _, h4⟩ := fetch_main r1 s h
  obtain ⟨g1, _, _, g4⟩ := fetch_main r2 (fetchEmails r1 s).2 h1
  exact ⟨g1, h4, g4⟩

/-- C4 witness: the empty store fetched twice with overlapping remote
windows (message A appears in both calls), discharged on
`idempotent_ingestion`. -/
theorem idempotent_ingestion_witness :
    (idsOf emptyStore).Nodup
    ∧ ((idsOf (fetchEmails [remoteMsgA, remoteMsgB] (fetchEmails [remoteMsgA] emptyStore).2).2).Nodup
      ∧ (∀ e ∈ (fetchEmails [remoteMsgA] emptyStore).1,
          e.message_id ∉ idsOf emptyStore ∧ e ∈ (fetchEmails [remoteMsgA] emptyStore).2.emails)
      ∧ (∀ e ∈ (fetchEmails [remoteMsgA, remoteMsgB] (fetchEmails [remoteMsgA] emptyStore).2).1,
          e.message_id ∉ idsOf (fetchEmails [remoteMsgA] emptyStore).2
          ∧ e ∈ (fetchEmails [remoteMsgA, remoteMsgB] (fetchEmails [remoteMsgA] emptyStore).2).2.emails)) :=
  ⟨by decide, idempotent_ingestion emptyStore [remoteMsgA] [remoteMsgA, remoteMsgB] (by decide)⟩

end TicketPipeline
namespace TicketPipeline

theorem cte_state (env : RunEnv) (s : Store) (t d : String)
    (c : TicketCategoryEnum) (p : TicketPriorityEnum) (sid sf ss : String)
    (cb : Nat) (lc : Option ℚ) :
    (createTicketFromEmail env s t d c p sid sf ss cb lc).2.emails = s.emails
    ∧ (createTicketFromEmail env s t d c p sid sf ss cb lc).2.attempts = s.attempts + 1
    ∧ (createTicketFromEmail env s t d c p sid sf ss cb lc).2.exportLog = s.exportLog := by
  by_cases h : env.createOk s.attempts = true <;>
    simp [createTicketFromEmail, h]

theorem cta_state (env : RunEnv) (s : Store) (eid : Nat)
    (subj body fromA : String) (a : EmailAnalysisResult) :
    (createTicketFromAnalysis env s eid subj body fromA a).2.emails = s.emails
    ∧ (createTicketFromAnalysis env s eid subj body fromA a).2.attempts = s.attempts + 1
    ∧ (createTicketFromAnalysis env s eid subj body fromA a).2.exportLog = s.exportLog := by
  unfold createTicketFromAnalysis
  exact cte_state ..

theorem mark_state (s : Store) (eid : Nat) (a : Bool) (c : Option String)
    (ti : Option Nat) (er : Option String) :
    (markProcessed s eid a c ti er).tickets = s.tickets
    ∧ (markProcessed s eid a c ti er).attempts = s.attempts
    ∧ (markProcessed s eid a c ti er).exportLog = s.exportLog := by
  exact ⟨rfl, rfl, rfl⟩

theorem mark_establish (s : Store) (eid : Nat) (a : Bool) (c : Option String)
    (ti : Option Nat) (er : Option String) :
    processedFor (markProcessed s eid a c ti er).emails eid := by
  intro rec hrec hid
  obtain ⟨x, hx, hfx⟩ := List.mem_map.mp hrec
  by_cases hxe : (x.id == eid) = true
  · rw [← hfx]
    simp [hxe]
  · rw [← hfx] at hid ⊢
    simp [hxe] at hid ⊢
    exact absurd hid (by simpa using hxe)

theorem mark_preserve (s : Store) (eid : Nat) (a : Bool) (c : Option String)
    (ti : Option Nat) (er : Option String) (i : Nat) :
    processedFor s.emails i → processedFor (markProcessed s eid a c ti er).emails i := by
  intro h rec hrec hid
  obtain ⟨x, hx, hfx⟩ := List.mem_map.mp hrec
  by_cases hxe : (x.id == eid) = true
  · rw [← hfx]
    simp [hxe]
  · rw [← hfx] at hid ⊢
    simp [hxe] at hid ⊢
    exact h x hx hid

theorem mark_target_fields (s : Store) (eid : Nat) (a : Bool) (c : Option String)
    (ti : Option Nat) (er : Option String) :
    ∀ rec ∈ (markProcessed s eid a c ti er).emails, rec.id = eid →
      rec.processed = true ∧ rec.is_sap_related = some a ∧ rec.error_message = er := by
  intro rec hrec hid
  obtain ⟨x, hx, hfx⟩ := List.mem_map.mp hrec
  by_cases hxe : (x.id == eid) = true
  · rw [← hfx]
    simp [hxe]
  · rw [← hfx] at hid
    simp [hxe] at hid
    exact absurd hid (by simpa using hxe)

theorem psE_preserve (env : RunEnv) (s : Store) (eid : Nat)
    (subj body fromA : String) (auto : Bool) (i : Nat) :
    processedFor s.emails i →
    processedFor (processSingleEmail env s eid subj body fromA auto).2.emails i := by
  intro h
  cases hcl : env.classify eid subj body fromA with
  | error e =>
    simp only [processSingleEmail, hcl]
    exact h
  | ok a =>
    simp only [processSingleEmail, hcl]
    split
    · split
      next t s' hct =>
        have hse : s'.emails = s.emails := by
          have hc := (cta_state env s eid subj body fromA a).1
          rw [hct] at hc
          exact hc
        rw [← hse] at h
        exact h
      next t s' hct =>
        have hse : s'.emails = s.emails := by
          have hc := (cta_state env s eid subj body fromA a).1
          rw [hct] at hc
          exact hc
        exact mark_preserve _ _ _ _ _ _ _ (by rw [hse]; exact h)
    · exact mark_preserve _ _ _ _ _ _ _ h

end TicketPipeline
namespace TicketPipeline

theorem psE_ok_establish (env : RunEnv) (s : Store) (eid : Nat)
    (subj body fromA : String) (auto : Bool) (r : ProcResult) :
    (processSingleEmail env s eid subj body fromA auto).1 = .ok r →
    processedFor (processSingleEmail env s eid subj body fromA auto).2.emails eid := by
  cases hcl : env.classify eid subj body fromA with
  | error e =>
    simp only [processSingleEmail, hcl]
    intro hcontra
    exact absurd hcontra (by simp)
  | ok a =>
    simp only [processSingleEmail, hcl]
    split
    · split
      next t s' hct =>
        intro hcontra
        exact absurd hcontra (by simp)
      next t s' hct =>
        intro _
        exact mark_establish _ _ _ _ _ _
    · intro _
      exact mark_establish _ _ _ _ _ _

theorem handle_establish (env : RunEnv) (auto : Bool) (s : Store)
    (st : RunStats) (e : EmailRec) :
    processedFor (handleEmail env auto s st e).2.emails e.id := by
  unfold handleEmail
  split
  next r s' hps =>
    have hmk := psE_ok_establish env s e.id e.subject (e.body_text.getD "") e.from_address auto r
    rw [hps] at hmk
    exact hmk rfl
  next msg s' hps =>
    exact mark_establish _ _ _ _ _ _

theorem handle_preserve (env : RunEnv) (auto : Bool) (s : Store)
    (st : RunStats) (e : EmailRec) (i : Nat) :
    processedFor s.emails i → processedFor (handleEmail env auto s st e).2.emails i := by
  intro h
  unfold handleEmail
  split
  next r s' hps =>
    have hmk := psE_preserve env s e.id e.subject (e.body_text.getD "") e.from_address auto i h
    rw [hps] at hmk
    exact hmk
  next msg s' hps =>
    have hmk := psE_preserve env s e.id e.subject (e.body_text.getD "") e.from_address auto i h
    rw [hps] at hmk
    exact mark_preserve _ _ _ _ _ _ _ hmk

theorem handle_error_fields (env : RunEnv) (auto : Bool) (s : Store)
    (st : RunStats) (e : EmailRec) (msg : String) :
    (processSingleEmail env s e.id e.subject (e.body_text.getD "") e.from_address auto).1 = .error msg →
    ∀ rec ∈ (handleEmail env auto s st e).2.emails, rec.id = e.id →
      rec.processed = true ∧ rec.is_sap_related = some false ∧ rec.error_message = some msg := by
  intro herr
  unfold handleEmail
  split
  next r s' hps =>
    rw [hps] at herr
    exact absurd herr (by simp)
  next msg' s' hps =>
    rw [hps] at herr
    have hmsg : msg' = msg := by
      simpa using herr
    rw [hmsg]
    exact mark_target_fields _ _ _ _ _ _

theorem loop_preserve (env : RunEnv) (auto : Bool) :
    ∀ (es : List EmailRec) (s : Store) (st : RunStats) (i : Nat),
      processedFor s.emails i →
      processedFor (processLoop env auto es s st).2.emails i := by
  intro es
  induction es with
  | nil => intro s st i h; exact h
  | cons e rest ih =>
    intro s st i h
    exact ih _ _ i (handle_preserve env auto s st e i h)

theorem loop_establish (env : RunEnv) (auto : Bool) :
    ∀ (es : List EmailRec) (s : Store) (st : RunStats) (e : EmailRec),
      e ∈ es → processedFor (processLoop env auto es s st).2.emails e.id := by
  intro es
  induction es with
  | nil => intro s st e he; exact absurd he (List.not_mem_nil e)
  | cons e' rest ih =>
    intro s st e he
    rcases List.mem_cons.mp he with heq | htl
    · subst heq
      exact loop_preserve env auto rest _ _ _ (handle_establish env auto s st e)
    · exact ih _ _ e htl

theorem export_state (b : Bool) (s : Store) :
    (updateFrontendTicketsFile b s).2.emails = s.emails
    ∧ (updateFrontendTicketsFile b s).2.exportLog
      = s.exportLog ++ [(s.emails.filter (fun e => e.processed)).length] := by
  by_cases h : b = true <;> simp [updateFrontendTicketsFile, h]

end TicketPipeline
namespace TicketPipeline

theorem fetch_exportLog : ∀ (r : List RemoteMsg) (s : Store),
    (fetchEmails r s).2.exportLog = s.exportLog := by
  intro r
  induction r with
  | nil => intro s; rfl
  | cons m rest ih =>
    intro s
    by_cases hex : messageExists s (m.internetMessageId.getD m.gid) = true
    · simp [fetchEmails, hex, ih]
    · simp [fetchEmails, hex, ih, createEmailRec]

theorem psE_exportLog (env : RunEnv) (s : Store) (eid : Nat)
    (subj body fromA : String) (auto : Bool) :
    (processSingleEmail env s eid subj body fromA auto).2.exportLog = s.exportLog := by
  cases hcl : env.classify eid subj body fromA with
  | error e => simp only [processSingleEmail, hcl]
  | ok a =>
    simp only [processSingleEmail, hcl]
    split
    · split
      next t s' hct =>
        have hc := (cta_state env s eid subj body fromA a).2.2
        rw [hct] at hc
        exact hc
      next t s' hct =>
        have hc := (cta_state env s eid subj body fromA a).2.2
        rw [hct] at hc
        exact hc
    · rfl

theorem handle_exportLog (env : RunEnv) (auto : Bool) (s : Store)
    (st : RunStats) (e : EmailRec) :
    (handleEmail env auto s st e).2.exportLog = s.exportLog := by
  unfold handleEmail
  split
  next r s' hps =>
    have hc := psE_exportLog env s e.id e.subject (e.body_text.getD "") e.from_address auto
    rw [hps] at hc
    exact hc
  next msg s' hps =>
    have hc := psE_exportLog env s e.id e.subject (e.body_text.getD "") e.from_address auto
    rw [hps] at hc
    exact hc

theorem loop_exportLog (env : RunEnv) (auto : Bool) :
    ∀ (es : List EmailRec) (s : Store) (st : RunStats),
      (processLoop env auto es s st).2.exportLog = s.exportLog := by
  intro es
  induction es with
  | nil => intro s st; rfl
  | cons e rest ih =>
    intro s st
    rw [processLoop, ih, handle_exportLog]

/-- C8: every run invokes the export rebuild exactly once (the export
log of the final store gains one entry, recording that all messages the
run processed were already processed when the export ran), regardless
of per-message errors, and whether the export itself fails changes
nothing about the returned run statistics. -/
theorem export_rebuild_once (env : RunEnv) (s0 : Store)
    (remote : List RemoteMsg) (limit : Nat) (auto b1 b2 : Bool) :
    (processDailyEmails env b1 s0 remote limit auto).1
      = (processDailyEmails env b2 s0 remote limit auto).1
    ∧ (processDailyEmails env b1 s0 remote limit auto).2.exportLog
      = s0.exportLog ++
        [((processDailyEmails env b1 s0 remote limit auto).2.emails.filter
            (fun e => e.processed)).length] := by
  constructor
  · rfl
  · have hm : (processDailyEmails env b1 s0 remote limit auto).2.emails
        = (processLoop env auto (getUnprocessed (fetchEmails remote s0).2 limit)
            (fetchEmails remote s0).2
            ⟨(fetchEmails remote s0).1.length, 0, 0, 0, 0, 0⟩).2.emails :=
      (export_state b1 _).1
    rw [hm]
    show (updateFrontendTicketsFile b1 _).2.exportLog = _
    rw [(export_state b1 _).2, loop_exportLog, fetch_exportLog]

theorem handle_stats (env : RunEnv) (auto : Bool) (s : Store)
    (st : RunStats) (e : EmailRec) :
    ((handleEmail env auto s st e).1.analyzed + (handleEmail env auto s st e).1.errors
      = st.analyzed + st.errors + 1)
    ∧ ((handleEmail env auto s st e).1.analyzed + st.sap_related + st.skipped
      = st.analyzed + (handleEmail env auto s st e).1.sap_related
        + (handleEmail env auto s st e).1.skipped)
    ∧ ((handleEmail env auto s st e).1.tickets_created + st.sap_related
      ≤ st.tickets_created + (handleEmail env auto s st e).1.sap_related)
    ∧ (handleEmail env auto s st e).1.fetched = st.fetched := by
  unfold handleEmail
  split
  next r s' hps =>
    by_cases hsap : r.is_sap_related = true
    · by_cases htc : r.ticket_created = true
      · simp [hsap, htc]
        omega
      · simp only [Bool.not_eq_true] at htc
        simp [hsap, htc]
        omega
    · simp only [Bool.not_eq_true] at hsap
      simp [hsap]
      omega
  next msg s' hps =>
    refine ⟨by simp; omega, by simp, by simp, rfl⟩

theorem loop_stats (env : RunEnv) (auto : Bool) :
    ∀ (es : List EmailRec) (s : Store) (st : RunStats),
      ((processLoop env auto es s st).1.analyzed + (processLoop env auto es s st).1.errors
        = st.analyzed + st.errors + es.length)
      ∧ ((processLoop env auto es s st).1.analyzed + st.sap_related + st.skipped
        = st.analyzed + (processLoop env auto es s st).1.sap_related
          + (processLoop env auto es s st).1.skipped)
      ∧ ((processLoop env auto es s st).1.tickets_created + st.sap_related
        ≤ st.tickets_created + (processLoop env auto es s st).1.sap_related)
      ∧ (processLoop env auto es s st).1.fetched = st.fetched := by
  intro es
  induction es with
  | nil =>
    intro s st
    exact ⟨rfl, rfl, le_refl _, rfl⟩
  | cons e rest ih =>
    intro s st
    obtain ⟨h1, h2, h3, h4⟩ := handle_stats env auto s st e
    obtain ⟨g1, g2, g3, g4⟩ := ih (handleEmail env auto s st e).2 (handleEmail env auto s st e).1
    have hlen : (e :: rest).length = rest.length + 1 := rfl
    rw [processLoop]
    refine ⟨by omega, by omega, by omega, by rw [g4]; exact h4⟩

/-- C10: run-statistics invariants — analyzed splits into relevant plus
skipped, tickets created never exceed relevant messages, and analyzed
plus errors accounts exactly for the unprocessed messages the run
iterated (the fetched counter is the number of newly fetched
messages). -/
theorem run_stats_invariants (env : RunEnv) (b : Bool) (s0 : Store)
    (remote : List RemoteMsg) (limit : Nat) (auto : Bool) :
    ((processDailyEmails env b s0 remote limit auto).1.analyzed
      = (processDailyEmails env b s0 remote limit auto).1.sap_related
        + (processDailyEmails env b s0 remote limit auto).1.skipped)
    ∧ ((processDailyEmails env b s0 remote limit auto).1.tickets_created
      ≤ (processDailyEmails env b s0 remote limit auto).1.sap_related)
    ∧ ((processDailyEmails env b s0 remote limit auto).1.analyzed
        + (processDailyEmails env b s0 remote limit auto).1.errors
      = (getUnprocessed (fetchEmails remote s0).2 limit).length)
    ∧ (processDailyEmails env b s0 remote limit auto).1.fetched
      = (fetchEmails remote s0).1.length := by
  obtain ⟨h1, h2, h3, h4⟩ := loop_stats env auto
    (getUnprocessed (fetchEmails remote s0).2 limit) (fetchEmails remote s0).2
    ⟨(fetchEmails remote s0).1.length, 0, 0, 0, 0, 0⟩
  have hrun : (processDailyEmails env b s0 remote limit auto).1
      = (processLoop env auto (getUnprocessed (fetchEmails remote s0).2 limit)
          (fetchEmails remote s0).2
          ⟨(fetchEmails remote s0).1.length, 0, 0, 0, 0, 0⟩).1 := rfl
  rw [hrun]
  refine ⟨?_, ?_, ?_, ?_⟩
  · simpa using h2
  · simpa using h3
  · simpa using h1
  · simpa using h4

/-- C3 (amended): every message the run loads for processing (the
unprocessed messages, bounded by `max_emails`) is marked processed
after the run, whether its classification succeeded, failed, or a
ticket-creation error occurred; and a message whose processing raised
is marked processed with relevance false and the error text recorded. -/
theorem processed_once_amended :
    (∀ (env : RunEnv) (ex : Bool) (s0 : Store) (remote : List RemoteMsg)
       (limit : Nat) (auto : Bool) (e0 : EmailRec),
      e0 ∈ getUnprocessed (fetchEmails remote s0).2 limit →
      processedFor (processDailyEmails env ex s0 remote limit auto).2.emails e0.id)
    ∧ (∀ (env : RunEnv) (auto : Bool) (s : Store) (st : RunStats)
       (e : EmailRec) (msg : String),
      (processSingleEmail env s e.id e.subject (e.body_text.getD "") e.from_address auto).1
        = .error msg →
      ∀ rec ∈ (handleEmail env auto s st e).2.emails, rec.id = e.id →
        rec.processed = true ∧ rec.is_sap_related = some false
        ∧ rec.error_message = some msg) := by
  constructor
  · intro env ex s0 remote limit auto e0 he0
    have hm : (processDailyEmails env ex s0 remote limit auto).2.emails
        = (processLoop env auto (getUnprocessed (fetchEmails remote s0).2 limit)
            (fetchEmails remote s0).2
            ⟨(fetchEmails remote s0).1.length, 0, 0, 0, 0, 0⟩).2.emails := by
      exact (export_state ex _).1
    rw [hm]
    exact loop_establish env auto _ _ _ e0 he0
  · intro env auto s st e msg herr
    exact handle_error_fields env auto s st e msg herr

/-- C3 witness: a store with one unprocessed message run to completion
(first part), and a message whose analysis raises "boom" handled by the
per-message handler (second part), discharged on
`processed_once_amended`. -/
theorem processed_once_amended_witness :
    (demoEmail ∈ getUnprocessed (fetchEmails [] demoEStore).2 100
     ∧ processedFor (processDailyEmails envBenign true demoEStore [] 100 true).2.emails demoEmail.id)
    ∧ ((processSingleEmail envErr demoEStore demoEmail.id demoEmail.subject
          (demoEmail.body_text.getD "") demoEmail.from_address true).1 = .error "boom"
       ∧ ∀ rec ∈ (handleEmail envErr true demoEStore ⟨0, 0, 0, 0, 0, 0⟩ demoEmail).2.emails,
           rec.id = demoEmail.id →
           rec.processed = true ∧ rec.is_sap_related = some false
           ∧ rec.error_message = some "boom") :=
  ⟨⟨by decide, processed_once_amended.1 envBenign true demoEStore [] 100 true demoEmail (by decide)⟩,
   ⟨rfl, processed_once_amended.2 envErr true demoEStore ⟨0, 0, 0, 0, 0, 0⟩ demoEmail "boom" rfl⟩⟩

/-- C7 (amended): when the ticket store rejects a create during
pipeline ticket creation, the creation is not retried — exactly one
create attempt is made, no ticket is created for that message, the
message is still marked processed, and the run's error counter is
incremented. -/
theorem create_failure_handling (env : RunEnv) (s : Store) (st : RunStats)
    (e : EmailRec) (a : EmailAnalysisResult) (auto : Bool)
    (hcl : env.classify e.id e.subject (e.body_text.getD "") e.from_address = .ok a)
    (hcond : (a.is_sap_related && auto && decide (mkRat 6 10 ≤ a.confidence)) = true)
    (hfail : env.createOk s.attempts = false) :
    (handleEmail env auto s st e).2.attempts = s.attempts + 1
    ∧ (handleEmail env auto s st e).2.tickets = s.tickets
    ∧ (handleEmail env auto s st e).1.errors = st.errors + 1
    ∧ processedFor (handleEmail env auto s st e).2.emails e.id := by
  have hred : processSingleEmail env s e.id e.subject (e.body_text.getD "") e.from_address auto
      = (.error "ticket store rejected create", { s with attempts := s.attempts + 1 }) := by
    simp [processSingleEmail, hcl, hcond, createTicketFromAnalysis,
      createTicketFromEmail, hfail]
  unfold handleEmail
  rw [hred]
  exact ⟨rfl, rfl, rfl, mark_establish _ _ _ _ _ _⟩

/-- C7 witness: the concrete one-message store with an always-rejecting
ticket store, discharged on `create_failure_handling`. -/
theorem create_failure_handling_witness :
    (envFail.classify demoEmail.id demoEmail.subject (demoEmail.body_text.getD "")
        demoEmail.from_address = .ok (verdictAt (mkRat 9 10))
     ∧ ((verdictAt (mkRat 9 10)).is_sap_related && true
        && decide (mkRat 6 10 ≤ (verdictAt (mkRat 9 10)).confidence)) = true
     ∧ envFail.createOk demoEStore.attempts = false)
    ∧ ((handleEmail envFail true demoEStore ⟨0, 0, 0, 0, 0, 0⟩ demoEmail).2.attempts
        = demoEStore.attempts + 1
       ∧ (handleEmail envFail true demoEStore ⟨0, 0, 0, 0, 0, 0⟩ demoEmail).2.tickets
        = demoEStore.tickets
       ∧ (handleEmail envFail true demoEStore ⟨0, 0, 0, 0, 0, 0⟩ demoEmail).1.errors
        = (⟨0, 0, 0, 0, 0, 0⟩ : RunStats).errors + 1
       ∧ processedFor (handleEmail envFail true demoEStore ⟨0, 0, 0, 0, 0, 0⟩ demoEmail).2.emails
          demoEmail.id) :=
  ⟨⟨rfl, by decide, rfl⟩,
   create_failure_handling envFail demoEStore ⟨0, 0, 0, 0, 0, 0⟩ demoEmail
     (verdictAt (mkRat 9 10)) true rfl (by decide) rfl⟩

end TicketPipeline
namespace TicketPipeline

theorem createSimple_len (s : Store) :
    (createTicketSimple s).tickets.length = s.tickets.length + 1 := by
  simp [createTicketSimple, createTicketFromEmail]

theorem chain_lt_range' (n a : Nat) : List.Chain' (· < ·) (List.range' a n) := by
  induction n generalizing a with
  | zero => simp
  | succ m ih =>
    rw [List.range'_succ]
    cases m with
    | zero => simp
    | succ k =>
      rw [List.range'_succ]
      refine List.Chain'.cons (by omega) ?_
      rw [← List.range'_succ]
      exact ih (a + 1)

/-- C5 (amended): over any sequence of successful creates with no
intervening delete, `get_next_ticket_id` hands out exactly the
identifiers T-(count+1), T-(count+2), ... — numerically strictly
increasing and never repeating; the reuse counterexample shows the
guarantee fails once a delete occurs. -/
theorem next_ticket_id_amended (s : Store) (n : Nat) :
    createsTrace n s
      = (List.range' (s.tickets.length + 1) n).map (fun k => "T-" ++ zfill 3 (toString k))
    ∧ List.Chain' (· < ·) (List.range' (s.tickets.length + 1) n) := by
  constructor
  · induction n generalizing s with
    | zero => rfl
    | succ m ih =>
      rw [createsTrace, List.range'_succ, List.map_cons]
      congr 1
      rw [ih (createTicketSimple s), createSimple_len]
  · exact chain_lt_range' n _

end TicketPipeline
